import Mathlib

/-
Verification development for the HarvestGuru crop-yield client
(frontend/src/App.js). The definitions below are a shallow embedding of
the client-side state machines of that file: the auth/session provider,
the crop-prediction form (cascading state/district selects, submit
predicate, submission handling, result view), and the chat assistant.
Numbers carried in requests are modelled as rationals; the JS `parseFloat`
builtin is modelled on plain decimal numerals (optional sign, digits,
optional fractional part), returning NaN elsewhere, which covers every
string these theorems evaluate it on.
-/

namespace CropYield

/-- A JS number as produced by `parseFloat`: either NaN or a numeric value
(modelled as a rational). -/
inductive JsNum where
  | nan : JsNum
  | val (q : ℚ) : JsNum
deriving DecidableEq

/-- A JSON field value as assembled into a request body: `null`, a number,
or a string. -/
inductive JVal where
  | null : JVal
  | num (n : JsNum) : JVal
  | str (s : String) : JVal
deriving DecidableEq

/-- Value of a decimal digit list, most significant first. -/
def natOfDigits (l : List Char) : Nat :=
  l.foldl (fun n c => n * 10 + (c.toNat - 48)) 0

/-- Parse an unsigned decimal numeral (digits, optionally `.` then digits). -/
def parseDecimal (l : List Char) : Option ℚ :=
  let ip := l.takeWhile (fun c => c ≠ '.')
  let rest := l.dropWhile (fun c => c ≠ '.')
  match rest with
  | [] => if ip ≠ [] ∧ ip.all Char.isDigit then some ((natOfDigits ip : ℚ)) else none
  | _ :: fr =>
    if (ip ≠ [] ∨ fr ≠ []) ∧ ip.all Char.isDigit ∧ fr.all Char.isDigit ∧ ¬ '.' ∈ fr then
      some ((natOfDigits ip : ℚ) + (natOfDigits fr : ℚ) / ((10 : ℚ) ^ fr.length))
    else none

/-- Model of the JS `parseFloat` builtin on the decimal numerals this
application feeds it (optional sign, digits, optional fractional part);
anything else is NaN. -/
def jsParseFloat (s : String) : JsNum :=
  match s.data with
  | '-' :: rest => match parseDecimal rest with
    | some q => JsNum.val (-q)
    | none => JsNum.nan
  | '+' :: rest => match parseDecimal rest with
    | some q => JsNum.val q
    | none => JsNum.nan
  | l => match parseDecimal l with
    | some q => JsNum.val q
    | none => JsNum.nan

/-- ASCII whitespace recognised by the trim model. -/
def isWs (c : Char) : Bool :=
  c == ' ' || c == '\t' || c == '\n' || c == '\r'

/-- Model of JS `String.prototype.trim`: strip whitespace from both ends. -/
def jsTrim (s : String) : String :=
  String.mk (((s.data.dropWhile isWs).reverse.dropWhile isWs).reverse)

/-- The `formData` record of `CropPredictionForm` (App.js lines 552-577):
seventeen string-valued controlled fields. -/
structure FormData where
  state : String
  district : String
  village : String
  pincode : String
  farm_size : String
  farm_size_unit : String
  crop_name : String
  variety : String
  sowing_date : String
  season : String
  soil_type : String
  fertilizer_used : String
  ph_level : String
  organic_carbon : String
  irrigation_source : String
  irrigation_frequency : String
  water_availability : String
deriving DecidableEq

/-- The initial `formData` value: every field is the empty string except
`farm_size_unit`, which starts as "hectare". -/
def initFormData : FormData :=
  { state := "", district := "", village := "", pincode := "", farm_size := "",
    farm_size_unit := "hectare", crop_name := "", variety := "", sowing_date := "",
    season := "", soil_type := "", fertilizer_used := "", ph_level := "",
    organic_carbon := "", irrigation_source := "", irrigation_frequency := "",
    water_availability := "" }

/-- The field keys accepted by `handleInputChange`. -/
inductive FormKey where
  | state | district | village | pincode | farm_size | farm_size_unit
  | crop_name | variety | sowing_date | season
  | soil_type | fertilizer_used | ph_level | organic_carbon
  | irrigation_source | irrigation_frequency | water_availability
deriving DecidableEq

/-- `handleInputChange` (App.js lines 704-709): functional update of a single
field, all other fields untouched. -/
def handleInputChange (fd : FormData) (f : FormKey) (v : String) : FormData :=
  match f with
  | FormKey.state => { fd with state := v }
  | FormKey.district => { fd with district := v }
  | FormKey.village => { fd with village := v }
  | FormKey.pincode => { fd with pincode := v }
  | FormKey.farm_size => { fd with farm_size := v }
  | FormKey.farm_size_unit => { fd with farm_size_unit := v }
  | FormKey.crop_name => { fd with crop_name := v }
  | FormKey.variety => { fd with variety := v }
  | FormKey.sowing_date => { fd with sowing_date := v }
  | FormKey.season => { fd with season := v }
  | FormKey.soil_type => { fd with soil_type := v }
  | FormKey.fertilizer_used => { fd with fertilizer_used := v }
  | FormKey.ph_level => { fd with ph_level := v }
  | FormKey.organic_carbon => { fd with organic_carbon := v }
  | FormKey.irrigation_source => { fd with irrigation_source := v }
  | FormKey.irrigation_frequency => { fd with irrigation_frequency := v }
  | FormKey.water_availability => { fd with water_availability := v }

/-- The authenticated user profile. -/
structure UserProfile where
  id : String
  email : String
  name : String
  phone : String
deriving DecidableEq

/-- The `farm_details` group of the prediction request (App.js 659-666).
`farm_size` goes through `parseFloat`. -/
structure FarmDetails where
  state : String
  district : String
  village : String
  pincode : String
  farm_size : JsNum
  farm_size_unit : String
deriving DecidableEq

/-- The `crop_info` group (App.js 667-672). -/
structure CropInfo where
  crop_name : String
  variety : String
  sowing_date : String
  season : String
deriving DecidableEq

/-- The `soil_inputs` group (App.js 673-678). The two optional numeric
fields are JSON values: a number when supplied, `null` when blank. -/
structure SoilInputs where
  soil_type : String
  fertilizer_used : String
  ph_level : JVal
  organic_carbon : JVal
deriving DecidableEq

/-- The `irrigation_info` group (App.js 679-683). -/
structure IrrigationInfo where
  irrigation_source : String
  irrigation_frequency : String
  water_availability : String
deriving DecidableEq

/-- The whole `requestData` body posted to the predict-yield endpoint
(App.js 657-684): `user_id` plus the four field groups. -/
structure RequestData where
  user_id : String
  farm_details : FarmDetails
  crop_info : CropInfo
  soil_inputs : SoilInputs
  irrigation_info : IrrigationInfo
deriving DecidableEq

/-- `soil_inputs` assembly (App.js 673-678): a JS conditional on the string
truthiness of `ph_level` / `organic_carbon` (truthy = non-empty string)
sends `parseFloat` of the field, otherwise an explicit `null`. -/
def mkSoilInputs (fd : FormData) : SoilInputs :=
  { soil_type := fd.soil_type,
    fertilizer_used := fd.fertilizer_used,
    ph_level := if fd.ph_level = "" then JVal.null else JVal.num (jsParseFloat fd.ph_level),
    organic_carbon :=
      if fd.organic_carbon = "" then JVal.null else JVal.num (jsParseFloat fd.organic_carbon) }

/-- `farm_details` assembly (App.js 659-666). -/
def mkFarmDetails (fd : FormData) : FarmDetails :=
  { state := fd.state, district := fd.district, village := fd.village,
    pincode := fd.pincode, farm_size := jsParseFloat fd.farm_size,
    farm_size_unit := fd.farm_size_unit }

/-- `crop_info` assembly (App.js 667-672). -/
def mkCropInfo (fd : FormData) : CropInfo :=
  { crop_name := fd.crop_name, variety := fd.variety,
    sowing_date := fd.sowing_date, season := fd.season }

/-- `irrigation_info` assembly (App.js 679-683). -/
def mkIrrigationInfo (fd : FormData) : IrrigationInfo :=
  { irrigation_source := fd.irrigation_source,
    irrigation_frequency := fd.irrigation_frequency,
    water_availability := fd.water_availability }

/-- `requestData` assembly inside `handleSubmit` (App.js 657-684):
`user_id` is read from the authenticated user's profile. -/
def buildRequestData (u : UserProfile) (fd : FormData) : RequestData :=
  { user_id := u.id,
    farm_details := mkFarmDetails fd,
    crop_info := mkCropInfo fd,
    soil_inputs := mkSoilInputs fd,
    irrigation_info := mkIrrigationInfo fd }

/-- Assembly against a possibly-absent user: in JS, `user.id` on a missing
user throws, so no request body can be assembled without one. -/
def buildRequestOpt (u : Option UserProfile) (fd : FormData) : Option RequestData :=
  u.map (fun user => buildRequestData user fd)

/-- A soil-type option `{name, description}` from the reference data. -/
structure SoilType where
  name : String
  description : String
deriving DecidableEq

/-- The `PredictionResult` returned by the predict-yield endpoint and held
in the `prediction` state of `CropPredictionForm`. -/
structure PredictionResult where
  predicted_yield : ℚ
  yield_unit : String
  district_average : ℚ
  comparison_percentage : ℚ
  confidence_score : ℚ
  recommendations : List String
deriving DecidableEq

/-- The component state of `CropPredictionForm` (App.js 552-584):
the form record, the reference option lists, the `loading` flag, and the
optional `prediction`. `pendingDistricts` records the states of in-flight
district fetches in issue order — the code has no such bookkeeping, which
is exactly why responses are applied unconditionally; the list exists only
so response-arrival events can be expressed. -/
structure PredFormState where
  formData : FormData
  states : List String
  districts : List String
  crops : List String
  soilTypes : List SoilType
  loading : Bool
  prediction : Option PredictionResult
  pendingDistricts : List String
deriving DecidableEq

/-- Initial `CropPredictionForm` state. -/
def initPredForm : PredFormState :=
  { formData := initFormData, states := [], districts := [], crops := [],
    soilTypes := [], loading := false, prediction := none, pendingDistricts := [] }

/-- A field change through `handleInputChange` together with the districts
effect (App.js 594-598): the effect re-runs exactly when `formData.state`
changes, and fetches districts only when the new value is non-empty, so a
fetch for `v` is issued iff the changed field is `state`, `v` differs from
the previous value, and `v` is non-empty. Nothing else is touched: in
particular the current `districts` list and the `district` field survive
any change of `state`. -/
def setField (st : PredFormState) (f : FormKey) (v : String) : PredFormState :=
  { st with
    formData := handleInputChange st.formData f v,
    pendingDistricts :=
      if f = FormKey.state ∧ v ≠ st.formData.state ∧ v ≠ "" then
        st.pendingDistricts ++ [v]
      else st.pendingDistricts }

/-- Arrival of the response to the k-th in-flight district fetch, under an
environment `env` giving each state's district list. `fetchDistricts`
(App.js 613-624) applies `setDistricts(response.data.districts)` with no
check that the request's state is still the selected one. -/
def districtsRespond (env : String → List String) (st : PredFormState) (k : Nat) :
    PredFormState :=
  match st.pendingDistricts.get? k with
  | none => st
  | some s =>
    { st with districts := env s, pendingDistricts := st.pendingDistricts.eraseIdx k }

/-- Events of the prediction form relevant to the cascading-select rules:
a field change, or the arrival of the k-th pending district response. -/
inductive FormEv where
  | set (f : FormKey) (v : String) : FormEv
  | dresp (k : Nat) : FormEv
deriving DecidableEq

/-- One event step of the prediction form. -/
def formStep (env : String → List String) (st : PredFormState) (e : FormEv) :
    PredFormState :=
  match e with
  | FormEv.set f v => setField st f v
  | FormEv.dresp k => districtsRespond env st k

/-- Run a sequence of prediction-form events. -/
def formRun (env : String → List String) (st : PredFormState) (es : List FormEv) :
    PredFormState :=
  es.foldl (formStep env) st

/-- The submit button's `disabled` expression (App.js 1114): `loading` or
any of the seven required fields empty (JS string truthiness). There is no
numeric check on `farm_size`. -/
def submitDisabled (st : PredFormState) : Bool :=
  st.loading || st.formData.state == "" || st.formData.crop_name == ""
    || st.formData.season == "" || st.formData.soil_type == ""
    || st.formData.irrigation_source == "" || st.formData.irrigation_frequency == ""
    || st.formData.farm_size == ""

/-- Modelled from the spec (for comparison with `submitDisabled`): submission
enabled iff no submission is in flight, all required fields are non-empty,
and `farm_size` parses as a positive number. -/
def specSubmitEnabled (st : PredFormState) : Prop :=
  st.loading = false ∧ st.formData.state ≠ "" ∧ st.formData.crop_name ≠ ""
    ∧ st.formData.season ≠ "" ∧ st.formData.soil_type ≠ ""
    ∧ st.formData.irrigation_source ≠ "" ∧ st.formData.irrigation_frequency ≠ ""
    ∧ st.formData.farm_size ≠ ""
    ∧ ∃ q : ℚ, jsParseFloat st.formData.farm_size = JsNum.val q ∧ 0 < q

/-- Which view `CropPredictionForm` renders (App.js 711: the result view is
shown exactly when `prediction` is non-null, otherwise the editable form). -/
inductive FormView where
  | editing : FormView
  | result : FormView
deriving DecidableEq

/-- View selection of `CropPredictionForm`. -/
def cropFormView (st : PredFormState) : FormView :=
  if st.prediction.isSome then FormView.result else FormView.editing

/-- The "Make Another Prediction" button (App.js 717): `setPrediction(null)`
and nothing else. -/
def makeAnotherPrediction (st : PredFormState) : PredFormState :=
  { st with prediction := none }

/-- `handleSubmit` (App.js 652-702), given the outcome of the POST: on
success `setPrediction(response.data)`; on failure the error detail is
surfaced as a toast (returned here as the second component) and
`prediction` is untouched; either way `finally` clears `loading`, and
`formData` is never written. -/
def handleSubmit (st : PredFormState) (outcome : Except String PredictionResult) :
    PredFormState × Option String :=
  match outcome with
  | Except.ok r => ({ st with prediction := some r, loading := false }, none)
  | Except.error e => ({ st with loading := false }, some e)

/-- The `AuthProvider` state (App.js 67-129) together with the two pieces
of ambient state it writes: the persisted `localStorage` token
(`storedToken`) and the axios default `Authorization` header
(`authHeader`). -/
structure AuthState where
  token : Option String
  user : Option UserProfile
  storedToken : Option String
  authHeader : Option String
  loading : Bool
deriving DecidableEq

/-- `AuthProvider` mount: `token` is initialised from `localStorage`
(App.js 69), `user` is null, `loading` is true. -/
def initAuth (persisted : Option String) : AuthState :=
  { token := persisted, user := none, storedToken := persisted,
    authHeader := none, loading := true }

/-- Events of the auth component: the `useEffect` on `[token]` running, the
profile fetch resolving (either way), a successful login/register, logout. -/
inductive AuthEv where
  | tokenEffect : AuthEv
  | fetchUserOk (u : UserProfile) : AuthEv
  | fetchUserErr : AuthEv
  | loginOk (t : String) : AuthEv
  | registerOk (t : String) : AuthEv
  | logout : AuthEv
deriving DecidableEq

/-- One auth event (App.js 72-122). The `[token]` effect sets the
`Authorization` header and starts `fetchUser` when a token is present,
else just clears `loading`. `fetchUser`'s catch (86-88) removes the stored
token, nulls `token` and deletes the header; its `finally` clears
`loading`. `login`/`register` persist and install the new token.
`logout` clears everything. -/
def authStep (st : AuthState) (e : AuthEv) : AuthState :=
  match e with
  | AuthEv.tokenEffect =>
    match st.token with
    | some t => { st with authHeader := some ("Bearer " ++ t) }
    | none => { st with loading := false }
  | AuthEv.fetchUserOk u => { st with user := some u, loading := false }
  | AuthEv.fetchUserErr =>
    { st with storedToken := none, token := none, authHeader := none, loading := false }
  | AuthEv.loginOk t =>
    { st with
        storedToken := some t, token := some t,
        authHeader := some ("Bearer " ++ t) }
  | AuthEv.registerOk t =>
    { st with
        storedToken := some t, token := some t,
        authHeader := some ("Bearer " ++ t) }
  | AuthEv.logout =>
    { st with storedToken := none, token := none, user := none, authHeader := none }

/-- Startup session resolution with a persisted token `t`: mount, the
`[token]` effect runs (installing the header and issuing the profile
fetch), and the fetch resolves with `r`. -/
def resolveSession (t : String) (r : Except Unit UserProfile) : AuthState :=
  let st1 := authStep (initAuth (some t)) AuthEv.tokenEffect
  match r with
  | Except.ok u => authStep st1 (AuthEv.fetchUserOk u)
  | Except.error _ => authStep st1 AuthEv.fetchUserErr

/-- What `MainApp` renders (App.js 1494-1509): the loading screen while
`loading`, the login form when no user, else the main app. -/
inductive AppView where
  | loadingScreen : AppView
  | loginForm : AppView
  | mainApp : AppView
deriving DecidableEq

/-- `MainApp` view selection. -/
def mainAppView (st : AuthState) : AppView :=
  if st.loading then AppView.loadingScreen
  else match st.user with
    | none => AppView.loginForm
    | some _ => AppView.mainApp

/-- A chat transcript entry (App.js 1314-1318, 1329-1334): speaker tag,
text, the language tag captured at send time, and for bot turns an
optional recommendations list. -/
structure ChatMsg where
  speaker : Bool
  content : String
  language : String
  recommendations : Option (List String)
deriving DecidableEq

/-- Speaker tag for a user turn (the code's `type: 'user'`). -/
def userTurn : Bool := true

/-- Speaker tag for a bot turn (the code's `type: 'bot'`). -/
def botTurn : Bool := false

/-- The `ChatAssistant` component state (App.js 1292-1301). `pendingReq`
records the (message, language) pair captured by the in-flight
`sendMessage` call, if any; it stands for the closure state of the
awaited axios call. -/
structure ChatState where
  messages : List ChatMsg
  newMessage : String
  selectedLanguage : String
  loading : Bool
  pendingReq : Option (String × String)
deriving DecidableEq

/-- Initial chat state: the transcript already holds one bot greeting
(App.js 1292-1298). -/
def initChat : ChatState :=
  { messages :=
      [{ speaker := botTurn,
         content := "Hello! I\x27m your farming assistant. How can I help you today?",
         language := "en", recommendations := none }],
    newMessage := "", selectedLanguage := "en", loading := false, pendingReq := none }

/-- Whether a send attempt goes through: the textarea and send button are
disabled while `loading` (App.js 1426, 1430), and `sendMessage` itself
returns on blank trimmed input (1312). -/
def sendAccepted (st : ChatState) : Bool :=
  !st.loading && !(jsTrim st.newMessage == "")

/-- Chat events: typing into the textarea, changing the language selector,
clicking a quick question (populates the input, never sends), a send
attempt, and the outstanding request resolving (success or failure). -/
inductive ChatEv where
  | setInput (s : String) : ChatEv
  | setLanguage (l : String) : ChatEv
  | quickQuestion (q : String) : ChatEv
  | send : ChatEv
  | respondOk (resp : String) (recs : Option (List String)) : ChatEv
  | respondErr : ChatEv
deriving DecidableEq

/-- One chat event (App.js 1311-1347, 1420-1434, 1458-1465). An accepted
send appends the user turn and marks the request outstanding. A response
is meaningful only while a request is outstanding: success appends a bot
turn carrying the response and the send-time language; failure appends
nothing; either way the `finally` block clears `loading` and the input. -/
def chatStep (st : ChatState) (e : ChatEv) : ChatState :=
  match e with
  | ChatEv.setInput s => if st.loading then st else { st with newMessage := s }
  | ChatEv.setLanguage l => { st with selectedLanguage := l }
  | ChatEv.quickQuestion q => { st with newMessage := q }
  | ChatEv.send =>
    if sendAccepted st then
      { st with
          messages := st.messages ++
            [{ speaker := userTurn, content := st.newMessage,
               language := st.selectedLanguage, recommendations := none }],
          loading := true,
          pendingReq := some (st.newMessage, st.selectedLanguage) }
    else st
  | ChatEv.respondOk resp recs =>
    match st.pendingReq with
    | none => st
    | some p =>
      { st with
          messages := st.messages ++
            [{ speaker := botTurn, content := resp,
               language := p.2, recommendations := recs }],
          loading := false, newMessage := "", pendingReq := none }
  | ChatEv.respondErr =>
    match st.pendingReq with
    | none => st
    | some _ => { st with loading := false, newMessage := "", pendingReq := none }

/-- A chat state instrumented with counters: accepted sends and successful
responses so far. -/
structure ChatTrace where
  st : ChatState
  accepted : Nat
  succeeded : Nat
deriving DecidableEq

/-- Initial instrumented chat state. -/
def initChatTrace : ChatTrace :=
  { st := initChat, accepted := 0, succeeded := 0 }

/-- Instrumented step: the state evolves by `chatStep`; `accepted` counts
sends that went through, `succeeded` counts successful responses applied
to an outstanding request. -/
def chatTraceStep (c : ChatTrace) (e : ChatEv) : ChatTrace :=
  { st := chatStep c.st e,
    accepted := c.accepted +
      (match e with
       | ChatEv.send => if sendAccepted c.st then 1 else 0
       | _ => 0),
    succeeded := c.succeeded +
      (match e with
       | ChatEv.respondOk _ _ => if c.st.pendingReq.isSome then 1 else 0
       | _ => 0) }

/-- Run a sequence of chat events from an instrumented state. -/
def chatRun (c : ChatTrace) (es : List ChatEv) : ChatTrace :=
  es.foldl chatTraceStep c

/-- District lists of the two states of the stale-fetch scenario. -/
def c1Env : String → List String := fun s =>
  if s = "Odisha" then ["Cuttack", "Puri"]
  else if s = "Bihar" then ["Patna", "Gaya"]
  else []

/-- The stale-fetch scenario: select Odisha, change to Bihar before the
Odisha response arrives, then the Bihar response arrives, then the stale
Odisha response arrives. -/
def c1Trace : List FormEv :=
  [FormEv.set FormKey.state "Odisha", FormEv.set FormKey.state "Bihar",
   FormEv.dresp 1, FormEv.dresp 0]

/-- A form state with a state and a dependent district already selected and
that state's districts loaded. -/
def c2State : PredFormState :=
  { initPredForm with
      formData := { initFormData with state := "Odisha", district := "Cuttack" },
      districts := ["Cuttack", "Puri"] }

/-- A form record with every required field filled and `farm_size := "0"`,
which is a non-empty string but not a positive number. -/
def c3FormData : FormData :=
  { initFormData with
      state := "Odisha", crop_name := "Rice", season := "Kharif",
      soil_type := "Alluvial", irrigation_source := "Canal",
      irrigation_frequency := "Regularly", farm_size := "0" }

/-- The form state carrying `c3FormData`, not submitting. -/
def c3State : PredFormState :=
  { initPredForm with formData := c3FormData }

/-- A concrete prediction result. -/
def c5Result : PredictionResult :=
  { predicted_yield := 12, yield_unit := "quintals/hectare",
    district_average := 10, comparison_percentage := 20,
    confidence_score := 85, recommendations := ["Use certified seeds"] }

/-- A form state in the result view, with non-blank form fields behind it. -/
def c5State : PredFormState :=
  { initPredForm with
      formData := { initFormData with state := "Odisha", crop_name := "Rice" },
      prediction := some c5Result }

/-- Every chat event preserves the transcript-length accounting: length is
one (the greeting) plus accepted sends plus successful responses. -/
lemma chatTraceStep_len (c : ChatTrace) (e : ChatEv)
    (h : c.st.messages.length = 1 + c.accepted + c.succeeded) :
    (chatTraceStep c e).st.messages.length =
      1 + (chatTraceStep c e).accepted + (chatTraceStep c e).succeeded := by
  cases e with
  | setInput s =>
    by_cases hl : c.st.loading <;> simp [chatTraceStep, chatStep, hl, h]
  | setLanguage l => simp [chatTraceStep, chatStep, h]
  | quickQuestion q => simp [chatTraceStep, chatStep, h]
  | send =>
    by_cases hs : sendAccepted c.st = true
    · simp [chatTraceStep, chatStep, hs, h]
      omega
    · simp [chatTraceStep, chatStep, hs, h]
  | respondOk r recs =>
    cases hp : c.st.pendingReq with
    | none => simp [chatTraceStep, chatStep, hp, h]
    | some p => simp [chatTraceStep, chatStep, hp, h]; omega
  | respondErr =>
    cases hp : c.st.pendingReq with
    | none => simp [chatTraceStep, chatStep, hp, h]
    | some p => simp [chatTraceStep, chatStep, hp, h]

/-- The transcript-length accounting is an invariant of arbitrary chat
event sequences. -/
lemma chatRun_len (es : List ChatEv) (c : ChatTrace)
    (h : c.st.messages.length = 1 + c.accepted + c.succeeded) :
    (chatRun c es).st.messages.length =
      1 + (chatRun c es).accepted + (chatRun c es).succeeded := by
  induction es generalizing c with
  | nil => simpa [chatRun] using h
  | cons e es ih =>
    simp only [chatRun, List.foldl_cons]
    exact ih (chatTraceStep c e) (chatTraceStep_len c e h)

/-- C1 counterexample: in the Odisha-then-Bihar scenario where the stale
Odisha response arrives after Bihar's, all fetches have settled, the
selected state is Bihar, yet the visible district list is Odisha's — the
stale response was applied, not discarded. -/
theorem C1_counterexample :
    (formRun c1Env initPredForm c1Trace).pendingDistricts = [] ∧
    (formRun c1Env initPredForm c1Trace).formData.state = "Bihar" ∧
    (formRun c1Env initPredForm c1Trace).districts = c1Env "Odisha" ∧
    (formRun c1Env initPredForm c1Trace).districts ≠ c1Env "Bihar" := by
  refine ⟨rfl, rfl, rfl, by decide⟩

/-- C1 (amended): `fetchDistricts` applies every district response
unconditionally — no validation against the currently selected state — so
the district list after all fetches settle is that of whichever response
arrived last, which need not be the most recently selected state. -/
theorem C1_stale_response_applied (env : String → List String)
    (st : PredFormState) (k : Nat) (s : String)
    (h : st.pendingDistricts[k]? = some s) :
    (formStep env st (FormEv.dresp k)).districts = env s ∧
    (formStep env st (FormEv.dresp k)).formData = st.formData := by
  simp [formStep, districtsRespond, h]

/-- Witness for C1: a concrete pending Odisha fetch whose response is
applied even though Bihar is the selected state. -/
theorem C1_witness :
    (formStep c1Env
      { initPredForm with
          formData := { initFormData with state := "Bihar" },
          pendingDistricts := ["Odisha"] }
      (FormEv.dresp 0)).districts = c1Env "Odisha" :=
  (C1_stale_response_applied c1Env
    { initPredForm with
        formData := { initFormData with state := "Bihar" },
        pendingDistricts := ["Odisha"] } 0 "Odisha" rfl).1

/-- C2 counterexample: from a state with Odisha selected and district
Cuttack chosen, changing `state` to the empty string leaves the district
value and the district list untouched; changing it to Bihar likewise keeps
the stale Cuttack district selection. -/
theorem C2_counterexample :
    ((formStep (fun _ => []) c2State (FormEv.set FormKey.state "")).formData.state = "" ∧
     (formStep (fun _ => []) c2State (FormEv.set FormKey.state "")).formData.district
       = "Cuttack" ∧
     (formStep (fun _ => []) c2State (FormEv.set FormKey.state "")).districts
       = ["Cuttack", "Puri"]) ∧
    (formStep (fun _ => []) c2State (FormEv.set FormKey.state "Bihar")).formData.district
      = "Cuttack" := by
  refine ⟨⟨rfl, rfl, rfl⟩, rfl⟩

/-- C2 (amended): `handleInputChange` updates only the changed field and
the districts effect only issues fetches: a change of `state` (to empty or
otherwise) never clears the district list and never resets the previously
selected `district` value — there is no cascading invalidation. -/
theorem C2_state_change_keeps_district (env : String → List String)
    (st : PredFormState) (v : String) :
    (formStep env st (FormEv.set FormKey.state v)).formData.district =
      st.formData.district ∧
    (formStep env st (FormEv.set FormKey.state v)).districts = st.districts := by
  constructor <;> simp [formStep, setField, handleInputChange]

/-- C3 counterexample: with every required field non-empty but
`farm_size = "0"`, the submit button is enabled although the farm size
does not parse as a positive number. -/
theorem C3_counterexample :
    submitDisabled c3State = false ∧ ¬ specSubmitEnabled c3State := by
  refine ⟨rfl, ?_⟩
  rintro ⟨-, -, -, -, -, -, -, -, q, hq, hpos⟩
  have h0 : jsParseFloat c3State.formData.farm_size = JsNum.val 0 := rfl
  rw [h0] at hq
  injection hq with h
  rw [← h] at hpos
  exact absurd hpos (by norm_num)

/-- C3 (amended): submission is enabled iff no submission is in flight and
the seven required fields are non-empty strings; `farm_size` is checked
only for non-emptiness, never for parsing as a positive number. -/
theorem C3_submit_enabled_iff (st : PredFormState) :
    submitDisabled st = false ↔
      (st.loading = false ∧ st.formData.state ≠ "" ∧ st.formData.crop_name ≠ "" ∧
       st.formData.season ≠ "" ∧ st.formData.soil_type ≠ "" ∧
       st.formData.irrigation_source ≠ "" ∧ st.formData.irrigation_frequency ≠ "" ∧
       st.formData.farm_size ≠ "") := by
  simp [submitDisabled, and_assoc]

/-- C4: blank optional numeric fields are sent as an explicit JSON `null`
(in particular never as any number, so never `0` or NaN), and non-blank
ones are sent as the `parseFloat` of the entered string. -/
theorem C4_optional_numeric_blank_absent (fd : FormData) :
    (fd.ph_level = "" →
      (mkSoilInputs fd).ph_level = JVal.null ∧
        ∀ n, (mkSoilInputs fd).ph_level ≠ JVal.num n) ∧
    (fd.ph_level ≠ "" →
      (mkSoilInputs fd).ph_level = JVal.num (jsParseFloat fd.ph_level)) ∧
    (fd.organic_carbon = "" →
      (mkSoilInputs fd).organic_carbon = JVal.null ∧
        ∀ n, (mkSoilInputs fd).organic_carbon ≠ JVal.num n) ∧
    (fd.organic_carbon ≠ "" →
      (mkSoilInputs fd).organic_carbon = JVal.num (jsParseFloat fd.organic_carbon)) := by
  refine ⟨fun h => ?_, fun h => ?_, fun h => ?_, fun h => ?_⟩ <;>
    simp [mkSoilInputs, h]

/-- Witness for C4: a blank `ph_level` is sent as `null`, a filled one as
its parsed value. -/
theorem C4_witness :
    (mkSoilInputs initFormData).ph_level = JVal.null ∧
    (mkSoilInputs { initFormData with ph_level := "6.5" }).ph_level =
      JVal.num (jsParseFloat "6.5") :=
  ⟨((C4_optional_numeric_blank_absent initFormData).1 rfl).1,
   (C4_optional_numeric_blank_absent { initFormData with ph_level := "6.5" }).2.1
     (by decide)⟩

/-- C5 counterexample: from the result view, "Make Another Prediction"
returns to the editable form, but the form fields are the previous values,
not blank. -/
theorem C5_counterexample :
    cropFormView c5State = FormView.result ∧
    cropFormView (makeAnotherPrediction c5State) = FormView.editing ∧
    (makeAnotherPrediction c5State).prediction = none ∧
    (makeAnotherPrediction c5State).formData.state = "Odisha" ∧
    (makeAnotherPrediction c5State).formData ≠ initFormData := by
  refine ⟨rfl, rfl, rfl, rfl, by decide⟩

/-- C5 (amended): "Make Another Prediction" discards the held
`PredictionResult` and transitions back to Editing, but the form fields
keep their previous values (they are not blanked). -/
theorem C5_make_another_keeps_fields (st : PredFormState) :
    (makeAnotherPrediction st).prediction = none ∧
    (makeAnotherPrediction st).formData = st.formData ∧
    cropFormView (makeAnotherPrediction st) = FormView.editing :=
  ⟨rfl, rfl, rfl⟩

/-- C6: a successful submission transitions to the result view holding the
returned result with the form fields untouched; a failed submission leaves
the form in Editing with every field value unchanged, surfaces the failure
detail, and clears the in-flight flag — no partial state persists. -/
theorem C6_submit_outcome (st : PredFormState) :
    (∀ r, (handleSubmit st (Except.ok r)).1.prediction = some r ∧
      cropFormView (handleSubmit st (Except.ok r)).1 = FormView.result ∧
      (handleSubmit st (Except.ok r)).1.formData = st.formData ∧
      (handleSubmit st (Except.ok r)).1.loading = false) ∧
    (∀ e, (handleSubmit st (Except.error e)).1.formData = st.formData ∧
      (handleSubmit st (Except.error e)).1.prediction = st.prediction ∧
      (handleSubmit st (Except.error e)).2 = some e ∧
      (handleSubmit st (Except.error e)).1.loading = false ∧
      (st.prediction = none →
        cropFormView (handleSubmit st (Except.error e)).1 = FormView.editing)) := by
  refine ⟨fun r => ⟨rfl, rfl, rfl, rfl⟩, fun e => ⟨rfl, rfl, rfl, rfl, fun h => ?_⟩⟩
  simp [handleSubmit, cropFormView, h]

/-- Witness for C6: a concrete failed submission from the blank editing
state surfaces its detail and stays in Editing. -/
theorem C6_witness :
    (handleSubmit initPredForm (Except.error "boom")).2 = some "boom" ∧
    cropFormView (handleSubmit initPredForm (Except.error "boom")).1 =
      FormView.editing :=
  ⟨((C6_submit_outcome initPredForm).2 "boom").2.2.1,
   ((C6_submit_outcome initPredForm).2 "boom").2.2.2.2 rfl⟩

/-- C7: with a persisted token, startup resolution fetches the profile; on
success the session is authenticated and the main app is shown; on any
failure the token, the persisted credential, and the Authorization header
are all cleared and the unauthenticated entry screen is shown; and apart
from explicit logout, the profile-fetch failure is the only event that
clears a present token. -/
theorem C7_resolve_session (t : String) :
    (∀ u, (resolveSession t (Except.ok u)).user = some u ∧
      (resolveSession t (Except.ok u)).token = some t ∧
      (resolveSession t (Except.ok u)).authHeader = some ("Bearer " ++ t) ∧
      mainAppView (resolveSession t (Except.ok u)) = AppView.mainApp) ∧
    ((resolveSession t (Except.error ())).token = none ∧
     (resolveSession t (Except.error ())).storedToken = none ∧
     (resolveSession t (Except.error ())).authHeader = none ∧
     (resolveSession t (Except.error ())).user = none ∧
     mainAppView (resolveSession t (Except.error ())) = AppView.loginForm) ∧
    (∀ (st : AuthState) (e : AuthEv), st.token.isSome →
      (authStep st e).token = none →
        e = AuthEv.fetchUserErr ∨ e = AuthEv.logout) := by
  refine ⟨fun u => ⟨rfl, rfl, rfl, rfl⟩, ⟨rfl, rfl, rfl, rfl, rfl⟩, ?_⟩
  intro st e h1 h2
  cases e with
  | tokenEffect =>
    cases hs : st.token with
    | none => rw [hs] at h1; simp at h1
    | some t0 => simp [authStep, hs] at h2
  | fetchUserOk u =>
    have : (authStep st (AuthEv.fetchUserOk u)).token = st.token := rfl
    rw [this] at h2
    rw [h2] at h1
    simp at h1
  | fetchUserErr => exact Or.inl rfl
  | loginOk t0 => simp [authStep] at h2
  | registerOk t0 => simp [authStep] at h2
  | logout => exact Or.inr rfl

/-- Witness for C7: startup with persisted token "tok" whose profile fetch
fails clears everything and shows the entry screen, and the
fetch-failure event is recognised as a token-clearing event. -/
theorem C7_witness :
    ((resolveSession "tok" (Except.error ())).token = none ∧
     (resolveSession "tok" (Except.error ())).storedToken = none ∧
     (resolveSession "tok" (Except.error ())).authHeader = none ∧
     (resolveSession "tok" (Except.error ())).user = none ∧
     mainAppView (resolveSession "tok" (Except.error ())) = AppView.loginForm) ∧
    (AuthEv.fetchUserErr = AuthEv.fetchUserErr ∨ AuthEv.fetchUserErr = AuthEv.logout) :=
  ⟨(C7_resolve_session "tok").2.1,
   (C7_resolve_session "tok").2.2 (initAuth (some "tok")) AuthEv.fetchUserErr rfl rfl⟩

/-- C8 counterexample: after one accepted send with one successful
response, the transcript has three turns (the initial greeting, the user
turn, the assistant turn), not the two the claimed law (N user turns plus
one assistant turn per success) predicts. -/
theorem C8_counterexample :
    (chatRun initChatTrace
      [ChatEv.setInput "hi", ChatEv.send, ChatEv.respondOk "ans" none]).accepted = 1 ∧
    (chatRun initChatTrace
      [ChatEv.setInput "hi", ChatEv.send, ChatEv.respondOk "ans" none]).succeeded = 1 ∧
    (chatRun initChatTrace
      [ChatEv.setInput "hi", ChatEv.send, ChatEv.respondOk "ans" none]).st.messages.length
      = 3 ∧
    (3 : Nat) ≠ 1 + 1 := by
  refine ⟨rfl, rfl, rfl, by decide⟩

/-- C8 (amended): a send while a request is outstanding is a no-op, a send
of whitespace-only text is a no-op, and over every event sequence the
transcript length equals one (the initial greeting) plus the accepted
sends plus the successful responses — a failed response appends no
assistant turn while the user's turn remains. -/
theorem C8_transcript_length :
    (∀ st : ChatState, st.loading = true → chatStep st ChatEv.send = st) ∧
    (∀ st : ChatState, jsTrim st.newMessage = "" → chatStep st ChatEv.send = st) ∧
    (∀ es : List ChatEv,
      (chatRun initChatTrace es).st.messages.length =
        1 + (chatRun initChatTrace es).accepted +
          (chatRun initChatTrace es).succeeded) := by
  refine ⟨fun st h => ?_, fun st h => ?_, fun es => chatRun_len es initChatTrace rfl⟩
  · simp [chatStep, sendAccepted, h]
  · simp [chatStep, sendAccepted, h]

/-- Witness for C8: concrete no-op sends (outstanding request; blank
input) and the accounting at the empty trace. -/
theorem C8_witness :
    chatStep { initChat with loading := true } ChatEv.send =
      { initChat with loading := true } ∧
    chatStep { initChat with newMessage := "   " } ChatEv.send =
      { initChat with newMessage := "   " } ∧
    (chatRun initChatTrace []).st.messages.length =
      1 + (chatRun initChatTrace []).accepted + (chatRun initChatTrace []).succeeded :=
  ⟨C8_transcript_length.1 { initChat with loading := true } rfl,
   C8_transcript_length.2.1 { initChat with newMessage := "   " } (by decide),
   C8_transcript_length.2.2 []⟩

/-- C9: the request body assembled by `handleSubmit` carries `user_id`
taken from the authenticated profile's `id` alongside the four field
groups, and no body can be assembled without a user present. -/
theorem C9_user_id_from_profile (u : UserProfile) (fd : FormData) :
    (buildRequestData u fd).user_id = u.id ∧
    (buildRequestData u fd).farm_details = mkFarmDetails fd ∧
    (buildRequestData u fd).crop_info = mkCropInfo fd ∧
    (buildRequestData u fd).soil_inputs = mkSoilInputs fd ∧
    (buildRequestData u fd).irrigation_info = mkIrrigationInfo fd ∧
    buildRequestOpt (some u) fd = some (buildRequestData u fd) ∧
    buildRequestOpt none fd = none :=
  ⟨rfl, rfl, rfl, rfl, rfl, rfl, rfl⟩

/-- C10: after any accepted send (a send that issues a request), the
pending input text is cleared when the request completes, on success and
on failure alike. -/
theorem C10_input_cleared_after_request (st : ChatState)
    (h1 : st.loading = false) (h2 : jsTrim st.newMessage ≠ "") :
    (∀ resp recs,
      (chatStep (chatStep st ChatEv.send) (ChatEv.respondOk resp recs)).newMessage
        = "") ∧
    (chatStep (chatStep st ChatEv.send) ChatEv.respondErr).newMessage = "" := by
  have hacc : sendAccepted st = true := by
    simp [sendAccepted, h1, h2]
  constructor
  · intro resp recs
    simp [chatStep, hacc]
  · simp [chatStep, hacc]

/-- Witness for C10: a concrete failed request still clears the input. -/
theorem C10_witness :
    (chatStep (chatStep { initChat with newMessage := "hello" } ChatEv.send)
      ChatEv.respondErr).newMessage = "" :=
  (C10_input_cleared_after_request { initChat with newMessage := "hello" }
    rfl (by decide)).2

end CropYield
